import Mathlib

/-!
Verification of the request/response core of the `icinga2apic`/`pretiac`
Icinga2 REST API client library.

The definitions below are a shallow embedding of the Python source:

* `pretiac/base.py` — `normalize_state`, `Base._create_session`,
  `Base._throw_exception`, `Base._request`, `Base._get_message_from_stream`;
* `pretiac/client.py` — the constructor validation of `Client.__init__`.

Python conventions are modelled explicitly: `Optional[str]` attributes are
`Option String` and their truthiness (`if x:`) is `truthy` (absent or empty
string is falsy); `Optional[bool]` is `Option Bool` (the three-way
unset / True / False distinction); Python `bool` values are `int` instances,
with `True` numerically equal to `1` and `False` to `0`; exceptions are
modelled with `Except`.
-/

set_option autoImplicit false

namespace Pretiac

/-- A JSON value, standing for the result of `response.json()`. -/
inductive Json where
  | null
  | bool (b : Bool)
  | num (n : Int)
  | str (s : String)
  | arr (elements : List Json)
  | obj (fields : List (String × Json))

/-- Truthiness of a Python `Optional[str]` value: `None` and `""` are falsy. -/
def truthy : Option String → Bool
  | none => false
  | some s => s ≠ ""

/-- The string stored in a Python `Optional[str]` attribute (`""` for `None`;
only ever read under a `truthy` guard). -/
def strVal : Option String → String
  | none => ""
  | some s => s

/-- Host states, from `pretiac/base.py` (`class HostState`). -/
inductive HostState where
  | UP
  | DOWN
deriving DecidableEq

/-- The integer value of a `HostState` member (`state.value`). -/
def HostState.value : HostState → Int
  | .UP => 0
  | .DOWN => 1

/-- Service states, from `pretiac/base.py` (`class ServiceState`). -/
inductive ServiceState where
  | OK
  | WARNING
  | CRITICAL
  | UNKNOWN
deriving DecidableEq

/-- The integer value of a `ServiceState` member (`state.value`). -/
def ServiceState.value : ServiceState → Int
  | .OK => 0
  | .WARNING => 1
  | .CRITICAL => 2
  | .UNKNOWN => 3

/-- The dynamic values that can reach `normalize_state` (its parameter is
typed `State | Any`): enum members, ints, bools (which ARE ints in Python),
strings, and `None`. -/
inductive PyState where
  | host (s : HostState)
  | service (s : ServiceState)
  | int (n : Int)
  | bool (b : Bool)
  | str (s : String)
  | noneV
deriving DecidableEq

/-- Whether `isinstance(state, int)` holds: Python `bool` is a subclass of
`int`, so bools pass this check. -/
def PyState.isInstanceInt : PyState → Bool
  | .int _ => true
  | .bool _ => true
  | _ => false

/-- The integer value a `PyState` compares as in `0 <= state <= 3`
(meaningful only when `isInstanceInt`; `True == 1`, `False == 0`). -/
def PyState.intValue : PyState → Int
  | .int n => n
  | .bool b => if b then 1 else 0
  | _ => 0

/-- Embeds `normalize_state` from `pretiac/base.py`: enum members reduce to
`state.value`; otherwise any `int` instance within `0 <= state <= 3` is
returned (as its numeric value); everything else raises
`PretiacException("invalid")`, modelled as `Except.error "invalid"`. -/
def normalize_state (state : PyState) : Except String Int :=
  match state with
  | .service s => .ok s.value
  | .host s => .ok s.value
  | _ =>
    if state.isInstanceInt && decide (0 ≤ state.intValue) && decide (state.intValue ≤ 3) then
      .ok state.intValue
    else
      .error "invalid"

/-- Embeds `Base._throw_exception` from `pretiac/base.py`: an explicitly
set per-call bool wins, else an explicitly set client default wins, else
exceptions are thrown (`True`). The `isinstance(x, bool)` checks are the
`some` matches. -/
def throw_exception (suppress_exception : Option Bool)
    (client_suppress_exception : Option Bool) : Bool :=
  match suppress_exception with
  | some b => !b
  | none =>
    match client_suppress_exception with
    | some b => !b
    | none => true

/-- Outcome of `Client.__init__` validation (`pretiac/client.py`):
either the constructor returns, or it raises a configuration error. -/
inductive InitResult where
  | ok
  | configError (msg : String)
deriving DecidableEq

/-- Embeds the validation at the end of `Client.__init__`
(`pretiac/client.py` lines 87-92), applied to the merged effective
configuration values: a falsy url raises, then a configuration in which
username, password and certificate are ALL falsy raises. -/
def client_init_check (url username password certificate : Option String) :
    InitResult :=
  if !truthy url then
    .configError "No \"url\" defined."
  else if !truthy username && !truthy password && !truthy certificate then
    .configError "Neither username/password nor certificate defined."
  else
    .ok

/-- The logical HTTP methods accepted by the dispatcher
(`RequestMethod` literal type in `pretiac/base.py`). -/
inductive RequestMethod where
  | GET
  | OPTIONS
  | HEAD
  | POST
  | PUT
  | PATCH
  | DELETE
deriving DecidableEq

/-- The string literal a `RequestMethod` stands for. -/
def RequestMethod.toStr : RequestMethod → String
  | .GET => "GET"
  | .OPTIONS => "OPTIONS"
  | .HEAD => "HEAD"
  | .POST => "POST"
  | .PUT => "PUT"
  | .PATCH => "PATCH"
  | .DELETE => "DELETE"

/-- Python `str.upper`, modelled character-wise (the method names are ASCII). -/
def str_upper (s : String) : String :=
  String.mk (s.data.map Char.toUpper)

/-- The effective client configuration read by `Base`: the attributes of the
client object that `_create_session`, `_throw_exception` and `_request`
access. `timeout` is stored by `Client.__init__` (`pretiac/client.py`
line 77). -/
structure ClientCfg where
  url : String
  version : String
  certificate : Option String
  key : Option String
  api_user : Option String
  password : Option String
  ca_certificate : Option String
  suppress_exception : Option Bool
  timeout : Option String

/-- The value of a `requests.Session().cert` attribute once set: either a
`(certificate, key)` pair of files or a single combined file. -/
inductive CertSetting where
  | pair (cert key : String)
  | single (cert : String)
deriving DecidableEq

/-- The observable configuration of the `requests.Session` object built by
`Base._create_session`: its `cert`, `auth` and `headers` attributes
(`none` models an attribute left at its `requests.Session()` default). -/
structure Session where
  cert : Option CertSetting
  auth : Option (String × String)
  headers : List (String × String)
deriving DecidableEq

/-- Embeds `Base._create_session` from `pretiac/base.py`: certificate
authentication is preferred (two-file pair first, then combined file),
then HTTP Basic username/password, then nothing; the headers dict is
assigned exactly three entries. -/
def create_session (client : ClientCfg) (method : RequestMethod) : Session :=
  let certAuth : Option CertSetting × Option (String × String) :=
    if truthy client.certificate && truthy client.key then
      (some (CertSetting.pair (strVal client.certificate) (strVal client.key)), none)
    else if truthy client.certificate then
      (some (CertSetting.single (strVal client.certificate)), none)
    else if truthy client.api_user && truthy client.password then
      (none, some (strVal client.api_user, strVal client.password))
    else
      (none, none)
  { cert := certAuth.1
    auth := certAuth.2
    headers := [("User-Agent", "Python-pretiac/" ++ client.version),
                ("X-HTTP-Method-Override", str_upper method.toStr),
                ("Accept", "application/json")] }

/-- A value in the keyword-argument dict `request_args` that `_request`
assembles and passes to `session.post(**request_args)`. -/
inductive ArgValue where
  | str (s : String)
  | json (payload : List (String × Json))
  | bool (b : Bool)

/-- Truthiness of the `payload` parameter (`Optional[dict]`): `None` and an
empty dict are falsy. -/
def truthyPayload : Option (List (String × Json)) → Bool
  | none => false
  | some fields => !fields.isEmpty

/-- Embeds the assembly of `request_args` in `Base._request`
(`pretiac/base.py` lines 229-237): always `url`; `json` when the payload is
truthy; `verify` from the CA certificate or `False`; `stream` only when
streaming. No other key — in particular no `timeout` — is ever added. -/
def build_request_args (client : ClientCfg) (request_url : String)
    (payload : Option (List (String × Json))) (stream : Bool) :
    List (String × ArgValue) :=
  [("url", ArgValue.str request_url)]
    ++ (if truthyPayload payload then
          [("json", ArgValue.json (payload.getD []))]
        else [])
    ++ (if truthy client.ca_certificate then
          [("verify", ArgValue.str (strVal client.ca_certificate))]
        else [("verify", ArgValue.bool false)])
    ++ (if stream then [("stream", ArgValue.bool true)] else [])

/-- The request as physically emitted by `session.post(**request_args)`
(`pretiac/base.py` line 240): the wire-level HTTP method, the session's
headers, and the keyword arguments. -/
structure WireRequest where
  httpMethod : String
  headers : List (String × String)
  args : List (String × ArgValue)

/-- Embeds the sending step of `Base._request`: the session is built for the
logical method, and the call is emitted with `session.post`, i.e. as a
wire-level `POST`, whatever the logical method was. -/
def request_wire (client : ClientCfg) (method : RequestMethod)
    (request_url : String) (payload : Option (List (String × Json)))
    (stream : Bool) : WireRequest :=
  { httpMethod := "POST"
    headers := (create_session client method).headers
    args := build_request_args client request_url payload stream }

/-- The observable fields of the `requests.Response` the server returned:
`response.url`, `response.status_code`, `response.text`, and the parsed
JSON body that `response.json()` yields. -/
structure HttpResponse where
  url : String
  status_code : Nat
  text : String
  jsonBody : Json

/-- The formatted message of the `PretiacRequestException` raised by
`Base._request`: `'Request "{}" failed with status {}: {}'.format(url, status_code, text)`. -/
def requestErrorMessage (url : String) (status_code : Nat) (text : String) : String :=
  "Request \"" ++ url ++ "\" failed with status " ++ toString status_code ++ ": " ++ text

/-- The payload of a raised `PretiacRequestException`: the formatted message
and `response.json()`. -/
structure RequestException where
  message : String
  response : Json

/-- Embeds the response handling of `Base._request` for a non-streaming call
(`pretiac/base.py` lines 245-261): raise when the resolved policy is throw
AND the status code is outside `[200, 299]`, otherwise return
`response.json()`. -/
def request_nonstream (client : ClientCfg) (suppress_exception : Option Bool)
    (response : HttpResponse) : Except RequestException Json :=
  if throw_exception suppress_exception client.suppress_exception
      && !(decide (200 ≤ response.status_code) && decide (response.status_code ≤ 299)) then
    .error { message := requestErrorMessage response.url response.status_code response.text
             response := response.jsonBody }
  else
    .ok response.jsonBody

/-- The value of a hexadecimal digit byte, if it is one. -/
def hexDigit (c : Nat) : Option Nat :=
  if 48 ≤ c ∧ c ≤ 57 then some (c - 48)
  else if 97 ≤ c ∧ c ≤ 102 then some (c - 87)
  else if 65 ≤ c ∧ c ≤ 70 then some (c - 55)
  else none

/-- Whether a byte is an octal digit. -/
def isOct (c : Nat) : Bool :=
  48 ≤ c && c ≤ 55

/-- The code point produced by a simple one-character backslash escape of
CPython's `unicode_escape` codec, if the byte introduces one. -/
def escChar (e : Nat) : Option Nat :=
  if e = 10 then some 256       -- a backslash-newline pair is elided
  else if e = 110 then some 10  -- n
  else if e = 116 then some 9   -- t
  else if e = 114 then some 13  -- r
  else if e = 92 then some 92   -- backslash
  else if e = 39 then some 39   -- single quote
  else if e = 34 then some 34   -- double quote
  else if e = 97 then some 7    -- a
  else if e = 98 then some 8    -- b
  else if e = 102 then some 12  -- f
  else if e = 118 then some 11  -- v
  else none

/-- Models CPython's `bytes.decode("unicode_escape")` on a byte list, with
explicit fuel for structural recursion: literal bytes map to the code point
of the same value (Latin-1), backslash sequences are decoded (one-character
escapes, octal, `\xHH`, `\uHHHH`), and an unrecognised escape keeps the
backslash and the following byte literally. -/
def decodeCharsF : Nat → List Nat → List Char
  | 0, _ => []
  | _ + 1, [] => []
  | fuel + 1, 92 :: rest =>
    match rest with
    | [] => [Char.ofNat 92]
    | e :: rest2 =>
      match escChar e with
      | some 256 => decodeCharsF fuel rest2
      | some c => Char.ofNat c :: decodeCharsF fuel rest2
      | none =>
        if isOct e then
          match rest2 with
          | d2 :: d3 :: rest3 =>
            if isOct d2 && isOct d3 then
              Char.ofNat (64 * (e - 48) + 8 * (d2 - 48) + (d3 - 48)) :: decodeCharsF fuel rest3
            else if isOct d2 then
              Char.ofNat (8 * (e - 48) + (d2 - 48)) :: decodeCharsF fuel (d3 :: rest3)
            else
              Char.ofNat (e - 48) :: decodeCharsF fuel (d2 :: d3 :: rest3)
          | [d2] =>
            if isOct d2 then
              [Char.ofNat (8 * (e - 48) + (d2 - 48))]
            else
              [Char.ofNat (e - 48), Char.ofNat d2]
          | [] => [Char.ofNat (e - 48)]
        else if e = 120 then
          match rest2 with
          | h1 :: h2 :: rest3 =>
            match hexDigit h1, hexDigit h2 with
            | some a, some b => Char.ofNat (16 * a + b) :: decodeCharsF fuel rest3
            | _, _ => Char.ofNat 92 :: Char.ofNat e :: decodeCharsF fuel rest2
          | _ => Char.ofNat 92 :: Char.ofNat e :: decodeCharsF fuel rest2
        else if e = 117 then
          match rest2 with
          | h1 :: h2 :: h3 :: h4 :: rest3 =>
            match hexDigit h1, hexDigit h2, hexDigit h3, hexDigit h4 with
            | some a, some b, some c, some d =>
              Char.ofNat (4096 * a + 256 * b + 16 * c + d) :: decodeCharsF fuel rest3
            | _, _, _, _ => Char.ofNat 92 :: Char.ofNat e :: decodeCharsF fuel rest2
          | _ => Char.ofNat 92 :: Char.ofNat e :: decodeCharsF fuel rest2
        else
          Char.ofNat 92 :: Char.ofNat e :: decodeCharsF fuel rest2
  | fuel + 1, c :: rest => Char.ofNat c :: decodeCharsF fuel rest

/-- Models `message.decode("unicode_escape")` as called by
`Base._get_message_from_stream`. -/
def decode_unicode_escape (bytes : List Nat) : String :=
  String.mk (decodeCharsF bytes.length bytes)

/-- How the underlying byte stream of an event subscription terminates:
the connection closes normally, or it fails mid-stream (in which case
`response.iter_content()` raises). -/
inductive StreamEnd where
  | closed
  | connError
deriving DecidableEq

/-- The observable way the generator of `Base._get_message_from_stream`
finishes: its loop exhausts the stream, or the exception raised by
`iter_content()` propagates out of it. -/
inductive StreamOutcome where
  | exhausted
  | raised
deriving DecidableEq

/-- The outcome the generator ends with once `iter_content()` stops
producing bytes. -/
def endOutcome : StreamEnd → StreamOutcome
  | .closed => .exhausted
  | .connError => .raised

/-- Embeds `Base._get_message_from_stream` from `pretiac/base.py` run to
completion against a stream that delivers `bytes` one byte at a time
(`iter_content()` with its default chunk size) and then terminates as
`ending`: the pair of the list of yielded messages, in order, and the way
the generator finished. `message` is the pending-buffer accumulator,
initially `b""`; on a newline byte the buffer is decoded, yielded and
reset; bytes still buffered at termination are never yielded. -/
def get_message_from_stream (bytes : List Nat) (ending : StreamEnd)
    (message : List Nat) : List String × StreamOutcome :=
  match bytes with
  | [] => ([], endOutcome ending)
  | c :: rest =>
    if c = 10 then
      let r := get_message_from_stream rest ending []
      (decode_unicode_escape message :: r.1, r.2)
    else
      get_message_from_stream rest ending (message ++ [c])

/-- Sample client configuration using username/password credentials. -/
def sampleClient : ClientCfg :=
  { url := "https://localhost:5665"
    version := "0.3.0"
    certificate := none
    key := none
    api_user := some "apiuser"
    password := some "password"
    ca_certificate := none
    suppress_exception := none
    timeout := none }

/-- Sample client configuration with every credential kind set at once. -/
def fullCredsClient : ClientCfg :=
  { url := "https://localhost:5665"
    version := "0.3.0"
    certificate := some "/etc/pretiac/host.crt"
    key := some "/etc/pretiac/host.key"
    api_user := some "apiuser"
    password := some "password"
    ca_certificate := none
    suppress_exception := none
    timeout := none }

/-- Sample client configuration with a request timeout configured. -/
def timeoutClient : ClientCfg :=
  { url := "https://localhost:5665"
    version := "0.3.0"
    certificate := none
    key := none
    api_user := some "apiuser"
    password := some "password"
    ca_certificate := none
    suppress_exception := none
    timeout := some "30" }

/-- Sample error response from the server. -/
def sampleErrorResponse : HttpResponse :=
  { url := "https://localhost:5665/v1/objects/services"
    status_code := 404
    text := "Not found"
    jsonBody := Json.obj [("error", Json.num 404)] }

/-- Running the stream reader over a newline-terminated frame yields the
decoded pending buffer plus frame and continues on the remainder with an
empty buffer. -/
theorem stream_frame (frame rest : List Nat) (ending : StreamEnd) (msg : List Nat)
    (h : 10 ∉ frame) :
    get_message_from_stream (frame ++ 10 :: rest) ending msg =
      (decode_unicode_escape (msg ++ frame) :: (get_message_from_stream rest ending []).1,
       (get_message_from_stream rest ending []).2) := by
  induction frame generalizing msg with
  | nil => simp [get_message_from_stream]
  | cons c cs ih =>
    have hc : c ≠ 10 := fun hc => h (hc ▸ List.mem_cons_self c cs)
    have hcs : 10 ∉ cs := fun hm => h (List.mem_cons_of_mem c hm)
    simp only [List.cons_append, get_message_from_stream, if_neg hc, List.append_eq]
    rw [ih (msg ++ [c]) hcs]
    simp

/-- A stream with no newline byte yields nothing: the pending buffer is
discarded at termination. -/
theorem stream_no_newline (rem : List Nat) (ending : StreamEnd) (msg : List Nat)
    (h : 10 ∉ rem) :
    get_message_from_stream rem ending msg = ([], endOutcome ending) := by
  induction rem generalizing msg with
  | nil => rfl
  | cons c cs ih =>
    have hc : c ≠ 10 := fun hc => h (hc ▸ List.mem_cons_self c cs)
    have hcs : 10 ∉ cs := fun hm => h (List.mem_cons_of_mem c hm)
    simp only [get_message_from_stream, if_neg hc]
    exact ih (msg ++ [c]) hcs

/-- Running the stream reader over a sequence of newline-terminated frames
followed by a newline-free remainder yields exactly the decoded frames, in
order, and finishes according to how the stream terminated. -/
theorem stream_frames (frames : List (List Nat)) (rem : List Nat) (ending : StreamEnd)
    (hf : ∀ f ∈ frames, 10 ∉ f) (hr : 10 ∉ rem) :
    get_message_from_stream ((frames.map (· ++ [10])).flatten ++ rem) ending [] =
      (frames.map decode_unicode_escape, endOutcome ending) := by
  induction frames with
  | nil => simpa using stream_no_newline rem ending [] hr
  | cons f fs ih =>
    have h1 : 10 ∉ f := hf f (List.mem_cons_self f fs)
    have hrest := ih fun g hg => hf g (List.mem_cons_of_mem f hg)
    have hassoc :
        ((f :: fs).map (· ++ [10])).flatten ++ rem =
          f ++ 10 :: ((fs.map (· ++ [10])).flatten ++ rem) := by
      simp [List.append_assoc]
    rw [hassoc, stream_frame f ((fs.map (· ++ [10])).flatten ++ rem) ending [] h1, hrest]
    simp

/-- C1: for every non-streaming dispatched request, `_request` raises a
request-failure error if and only if the resolved exception policy is throw
and the response status code is outside `[200, 299]`; when it raises, the
error carries the request URL, the status code, the raw response body text
(in its formatted message) and the parsed-JSON body; in every other case it
returns the parsed JSON body without raising. -/
theorem C1_request_error_policy (client : ClientCfg) (suppress_exception : Option Bool)
    (response : HttpResponse) :
    (throw_exception suppress_exception client.suppress_exception = true →
      ¬(200 ≤ response.status_code ∧ response.status_code ≤ 299) →
      request_nonstream client suppress_exception response =
        .error { message := requestErrorMessage response.url response.status_code response.text
                 response := response.jsonBody })
  ∧ (200 ≤ response.status_code ∧ response.status_code ≤ 299 →
      request_nonstream client suppress_exception response = .ok response.jsonBody)
  ∧ (throw_exception suppress_exception client.suppress_exception = false →
      request_nonstream client suppress_exception response = .ok response.jsonBody) := by
  refine ⟨?_, ?_, ?_⟩
  · intro ht hs
    have hcode : (decide (200 ≤ response.status_code)
        && decide (response.status_code ≤ 299)) = false := by
      by_cases h1 : 200 ≤ response.status_code
      · by_cases h2 : response.status_code ≤ 299
        · exact absurd ⟨h1, h2⟩ hs
        · simp [h2]
      · simp [h1]
    simp [request_nonstream, ht, hcode]
  · intro hs
    simp [request_nonstream, hs.1, hs.2]
  · intro ht
    simp [request_nonstream, ht]

/-- Witness for C1 at a concrete 404 response with suppression unset. -/
theorem C1_request_error_policy_witness :
    request_nonstream sampleClient none sampleErrorResponse =
      .error { message := requestErrorMessage "https://localhost:5665/v1/objects/services"
                 404 "Not found"
               response := Json.obj [("error", Json.num 404)] } :=
  (C1_request_error_policy sampleClient none sampleErrorResponse).1 rfl (by decide)

/-- C2: exception-suppression precedence: an explicitly set per-call bool
wins (true or false), else an explicitly set client default wins, else
exceptions are thrown; the unset / true / false distinction is observable
(an explicit per-call `False` overrides a client default of `True`, which
`None` does not). -/
theorem C2_suppression_precedence :
    (∀ (client_default : Option Bool) (b : Bool),
        throw_exception (some b) client_default = !b)
  ∧ (∀ b : Bool, throw_exception none (some b) = !b)
  ∧ throw_exception none none = true
  ∧ throw_exception (some false) (some true) = true
  ∧ throw_exception none (some true) = false :=
  ⟨fun _ _ => rfl, fun _ => rfl, rfl, rfl, rfl⟩

/-- C3: session construction selects exactly one authentication mode, in
priority order: certificate plus key as a two-file pair, else certificate
alone as a combined file, else username and password as HTTP Basic
credentials, else nothing; certificate auth always beats password auth. -/
theorem C3_auth_selection (client : ClientCfg) (method : RequestMethod) :
    (truthy client.certificate = true → truthy client.key = true →
      (create_session client method).cert =
          some (CertSetting.pair (strVal client.certificate) (strVal client.key))
        ∧ (create_session client method).auth = none)
  ∧ (truthy client.certificate = true → truthy client.key = false →
      (create_session client method).cert =
          some (CertSetting.single (strVal client.certificate))
        ∧ (create_session client method).auth = none)
  ∧ (truthy client.certificate = false →
      truthy client.api_user = true → truthy client.password = true →
      (create_session client method).cert = none
        ∧ (create_session client method).auth =
            some (strVal client.api_user, strVal client.password))
  ∧ (truthy client.certificate = false →
      (truthy client.api_user && truthy client.password) = false →
      (create_session client method).cert = none
        ∧ (create_session client method).auth = none) := by
  refine ⟨?_, ?_, ?_, ?_⟩
  · intro hc hk
    simp [create_session, hc, hk]
  · intro hc hk
    simp [create_session, hc, hk]
  · intro hc hu hp
    simp [create_session, hc, hu, hp]
  · intro hc h
    simp [create_session, hc, h]

/-- Witness for C3: with certificate, key, username and password all
configured, the certificate+key pair is chosen and no Basic credentials
are attached. -/
theorem C3_auth_selection_witness :
    (create_session fullCredsClient RequestMethod.GET).cert =
        some (CertSetting.pair "/etc/pretiac/host.crt" "/etc/pretiac/host.key")
      ∧ (create_session fullCredsClient RequestMethod.GET).auth = none :=
  (C3_auth_selection fullCredsClient RequestMethod.GET).1 (by decide) (by decide)

/-- C4: on the byte stream `b"\x7b\"a\":1\x7d\n\x7b\"b\":2\x7d\n"` the
stream reader yields exactly the two decoded values, in order, with no
extra empty elements; in general one element is emitted per
newline-terminated frame, in arrival order, and a trailing un-terminated
remainder is never emitted. -/
theorem C4_stream_framing :
    get_message_from_stream [123, 34, 97, 34, 58, 49, 125, 10, 123, 34, 98, 34, 58, 50, 125, 10]
        StreamEnd.closed [] =
      (["\x7b\"a\":1\x7d", "\x7b\"b\":2\x7d"], StreamOutcome.exhausted)
  ∧ ∀ (frames : List (List Nat)) (rem : List Nat) (ending : StreamEnd),
      (∀ f ∈ frames, 10 ∉ f) → 10 ∉ rem →
      get_message_from_stream ((frames.map (· ++ [10])).flatten ++ rem) ending [] =
        (frames.map decode_unicode_escape, endOutcome ending) :=
  ⟨by decide, fun frames rem ending hf hr => stream_frames frames rem ending hf hr⟩

/-- Witness for C4 at one concrete frame `[97]` with remainder `[98, 99]`. -/
theorem C4_stream_framing_witness :
    get_message_from_stream (([[97]].map (· ++ [10])).flatten ++ [98, 99])
        StreamEnd.closed [] =
      ([[97]].map decode_unicode_escape, endOutcome StreamEnd.closed) :=
  C4_stream_framing.2 [[97]] [98, 99] StreamEnd.closed (by decide) (by decide)

/-- C5: on a stream that terminates mid-message with a connection error,
the reader yields exactly the complete newline-terminated events, the
partially buffered bytes are discarded and never delivered, and the
sequence terminates by raising rather than ending silently. -/
theorem C5_stream_error_termination :
    get_message_from_stream [123, 34, 97, 34, 58, 49, 125, 10, 123, 34, 98, 34]
        StreamEnd.connError [] =
      (["\x7b\"a\":1\x7d"], StreamOutcome.raised)
  ∧ ∀ (frames : List (List Nat)) (rem : List Nat),
      (∀ f ∈ frames, 10 ∉ f) → 10 ∉ rem →
      get_message_from_stream ((frames.map (· ++ [10])).flatten ++ rem)
          StreamEnd.connError [] =
        (frames.map decode_unicode_escape, StreamOutcome.raised) :=
  ⟨by decide, fun frames rem hf hr => stream_frames frames rem StreamEnd.connError hf hr⟩

/-- Witness for C5 at one concrete frame `[98]` with partial remainder `[99]`. -/
theorem C5_stream_error_termination_witness :
    get_message_from_stream (([[98]].map (· ++ [10])).flatten ++ [99])
        StreamEnd.connError [] =
      ([[98]].map decode_unicode_escape, StreamOutcome.raised) :=
  C5_stream_error_termination.2 [[98]] [99] (by decide) (by decide)

/-- C6 counterexample: a configuration with a URL, a password, no username
and no certificate lacks both auth forms of the claim (no username+password
pair, no certificate), yet `Client.__init__` accepts it. -/
theorem C6_init_counterexample :
    client_init_check (some "https://localhost:5665") none (some "secret") none =
        InitResult.ok
      ∧ (truthy (none : Option String) && truthy (some "secret")) = false
      ∧ truthy (none : Option String) = false := by
  decide

/-- C6 (amended): construction fails with a configuration error for every
configuration that lacks a target URL, and for every configuration in which
username, password and certificate are ALL absent; it succeeds exactly when
a URL is present and at least ONE of username, password or certificate is
present (a lone username or a lone password suffices). -/
theorem C6_init_validation_amended (url username password certificate : Option String) :
    (truthy url = false →
      client_init_check url username password certificate =
        .configError "No \"url\" defined.")
  ∧ (truthy url = true → truthy username = false → truthy password = false →
      truthy certificate = false →
      client_init_check url username password certificate =
        .configError "Neither username/password nor certificate defined.")
  ∧ (truthy url = true →
      (truthy username || truthy password || truthy certificate) = true →
      client_init_check url username password certificate = .ok) := by
  refine ⟨?_, ?_, ?_⟩
  · intro hu
    simp [client_init_check, hu]
  · intro hu h1 h2 h3
    simp [client_init_check, hu, h1, h2, h3]
  · intro hu h
    rcases Bool.or_eq_true_iff.mp h with h' | h3
    · rcases Bool.or_eq_true_iff.mp h' with h1 | h2
      · simp [client_init_check, hu, h1]
      · simp [client_init_check, hu, h2]
    · simp [client_init_check, hu, h3]

/-- Witness for the amended C6 at a concrete username/password config. -/
theorem C6_init_validation_amended_witness :
    client_init_check (some "https://localhost:5665") (some "apiuser")
        (some "password") none = InitResult.ok :=
  (C6_init_validation_amended (some "https://localhost:5665") (some "apiuser")
      (some "password") none).2.2 (by decide) (by decide)

/-- C7: `normalize_state` maps every `HostState`/`ServiceState` member to
its underlying integer, maps every bare integer 0-3 to itself, and raises a
state-normalization error for every other input — out-of-range integers,
strings (for example `"CRITICAL"`), and `None`. -/
theorem C7_normalize_state :
    (∀ s : ServiceState, normalize_state (.service s) = .ok s.value)
  ∧ (∀ s : HostState, normalize_state (.host s) = .ok s.value)
  ∧ (∀ n : Int, 0 ≤ n ∧ n ≤ 3 → normalize_state (.int n) = .ok n)
  ∧ (∀ n : Int, ¬(0 ≤ n ∧ n ≤ 3) → normalize_state (.int n) = .error "invalid")
  ∧ (∀ s : String, normalize_state (.str s) = .error "invalid")
  ∧ normalize_state PyState.noneV = .error "invalid" := by
  refine ⟨fun s => rfl, fun s => rfl, ?_, ?_, fun s => rfl, rfl⟩
  · intro n hn
    simp [normalize_state, PyState.isInstanceInt, PyState.intValue, hn.1, hn.2]
  · intro n hn
    rcases not_and_or.mp hn with h | h <;>
      simp [normalize_state, PyState.isInstanceInt, PyState.intValue, h]

/-- Witness for C7 at the inputs named by the claim: `ServiceState.CRITICAL`,
the raw integer 1, the integer 5 and the string `"CRITICAL"`. -/
theorem C7_normalize_state_witness :
    normalize_state (PyState.service ServiceState.CRITICAL) = .ok 2
  ∧ normalize_state (PyState.int 1) = .ok 1
  ∧ normalize_state (PyState.int 5) = .error "invalid"
  ∧ normalize_state (PyState.str "CRITICAL") = .error "invalid" :=
  ⟨C7_normalize_state.1 ServiceState.CRITICAL,
   C7_normalize_state.2.2.1 1 (by decide),
   C7_normalize_state.2.2.2.1 5 (by decide),
   C7_normalize_state.2.2.2.2.1 "CRITICAL"⟩

/-- C8: for every logical method, the session built for a request carries
exactly the three headers — the product/version User-Agent,
`X-HTTP-Method-Override` equal to the uppercased logical method, and
`Accept: application/json` — and the request goes on the wire as an HTTP
POST regardless of the logical method. -/
theorem C8_headers_and_wire_method (client : ClientCfg) (method : RequestMethod)
    (request_url : String) (payload : Option (List (String × Json))) (stream : Bool) :
    (request_wire client method request_url payload stream).httpMethod = "POST"
  ∧ (request_wire client method request_url payload stream).headers =
      [("User-Agent", "Python-pretiac/" ++ client.version),
       ("X-HTTP-Method-Override", method.toStr),
       ("Accept", "application/json")]
  ∧ str_upper method.toStr = method.toStr := by
  have hup : str_upper method.toStr = method.toStr := by
    cases method <;> decide
  exact ⟨rfl, by simp [request_wire, create_session, hup], hup⟩

/-- C9: the claim that a configured request timeout is applied to the
outgoing HTTP request is false: the keyword arguments `_request` passes to
`session.post` never include a `timeout`, whatever the client
configuration — shown here both at a concrete client configured with
`timeout="30"` and for every client, URL, payload and streaming flag. -/
theorem C9_timeout_never_sent :
    build_request_args timeoutClient "https://localhost:5665/v1/status" none false =
      [("url", ArgValue.str "https://localhost:5665/v1/status"),
       ("verify", ArgValue.bool false)]
  ∧ ∀ (client : ClientCfg) (request_url : String)
      (payload : Option (List (String × Json))) (stream : Bool),
      (((build_request_args client request_url payload stream).map Prod.fst).contains
        "timeout") = false := by
  refine ⟨rfl, ?_⟩
  intro client request_url payload stream
  by_cases hp : truthyPayload payload <;>
    by_cases hca : truthy client.ca_certificate <;>
      by_cases hs : stream <;>
        simp [build_request_args, hp, hca, hs]

/-- C10: every value `normalize_state` returns without raising is an
integer in `[0, 3]`; in particular the Python booleans `True` and `False`
are `int` instances within that range and normalize to 1 and 0 instead of
being rejected. -/
theorem C10_normalize_state_range :
    (∀ (state : PyState) (r : Int), normalize_state state = .ok r → 0 ≤ r ∧ r ≤ 3)
  ∧ normalize_state (PyState.bool true) = .ok 1
  ∧ normalize_state (PyState.bool false) = .ok 0 := by
  refine ⟨?_, rfl, rfl⟩
  intro state r h
  cases state with
  | host s =>
    cases s <;> simp [normalize_state, HostState.value] at h <;> omega
  | service s =>
    cases s <;> simp [normalize_state, ServiceState.value] at h <;> omega
  | int n =>
    by_cases h0 : 0 ≤ n
    · by_cases h3 : n ≤ 3
      · simp [normalize_state, PyState.isInstanceInt, PyState.intValue, h0, h3] at h
        omega
      · simp [normalize_state, PyState.isInstanceInt, PyState.intValue, h0, h3] at h
    · simp [normalize_state, PyState.isInstanceInt, PyState.intValue, h0] at h
  | bool b =>
    cases b <;>
      simp [normalize_state, PyState.isInstanceInt, PyState.intValue] at h <;>
        omega
  | str s =>
    simp [normalize_state, PyState.isInstanceInt] at h
  | noneV =>
    simp [normalize_state, PyState.isInstanceInt] at h

/-- Witness for C10, applying the range bound at the Python boolean `True`. -/
theorem C10_normalize_state_range_witness : 0 ≤ (1 : Int) ∧ (1 : Int) ≤ 3 :=
  C10_normalize_state_range.1 (PyState.bool true) 1 rfl

end Pretiac
